import Mathlib

/-!
Shallow embedding of the authorization / session / profile-cache core of the
N-Sine storefront: the `retryOperation` wrapper, the `user_profiles` store
with its provisioning trigger `handle_new_user` and `create_admin_user`
procedure, the TTL profile cache with `getUserProfile` / `clearProfileCache`,
and the session-manager operations `signIn` / `signUp` / `signOut` /
`loadUserProfile` / `onSignup`.

Asynchronous JS functions that may reject are modelled as `Except`-valued
functions; responses of the external store and auth subsystem are either
derived from an explicit store state or passed in as response parameters,
matching how the source code consumes them.
-/

namespace NSine

/-- The `role` column: `CHECK (role IN ('admin', 'customer'))`. -/
inductive Role where
  | admin
  | customer
deriving DecidableEq, Repr

/-- A `user_profiles` row (timestamps in milliseconds, as `Date.now()`). -/
structure DbRow where
  id : String
  email : String
  full_name : Option String
  role : Role
  created_at : Nat
  updated_at : Nat
deriving DecidableEq, Repr

/-- A PostgREST error object (the fields the code inspects). -/
structure PgError where
  code : String
  message : String
deriving DecidableEq, Repr

/-- The `user_profiles` table; the primary key on `id` is enforced by the
operations below. -/
abbrev Store := List DbRow

/-- The rows of `s` whose `id` equals `uid`. -/
def uRows (s : Store) (uid : String) : List DbRow :=
  s.filter (fun r => r.id == uid)

/-- Semantics of `select('*').eq('id', uid).single()`: PostgREST returns the row when
exactly one matches and the error code `PGRST116` otherwise. -/
def storeSelectSingle (s : Store) (uid : String) : Except PgError DbRow :=
  match uRows s uid with
  | [r] => .ok r
  | [] => .error ⟨"PGRST116", "JSON object requested, no rows returned"⟩
  | _ => .error ⟨"PGRST116", "JSON object requested, multiple rows returned"⟩

/-- A plain `insert(row).select().single()`: fails with the duplicate-key
error `23505` when a row with the same primary key already exists, otherwise
appends the row and returns it. -/
def storeInsert (s : Store) (r : DbRow) : Except PgError (Store × DbRow) :=
  if s.any (fun q => q.id == r.id) then
    .error ⟨"23505", "duplicate key value violates unique constraint"⟩
  else
    .ok (s ++ [r], r)

/-- The provisioning trigger `handle_new_user`:
`INSERT INTO user_profiles (id, email, full_name, role)
 VALUES (new.id, new.email, COALESCE(new.raw_user_meta_data->>'full_name', new.email), 'customer')
 ON CONFLICT (id) DO UPDATE SET email = EXCLUDED.email,
 full_name = EXCLUDED.full_name, updated_at = now()`. -/
def handle_new_user (s : Store) (newId newEmail : String)
    (metaFullName : Option String) (now : Nat) : Store :=
  if s.any (fun r => r.id == newId) then
    s.map (fun r =>
      if r.id == newId then
        { r with email := newEmail,
                 full_name := some (metaFullName.getD newEmail),
                 updated_at := now }
      else r)
  else
    s ++ [⟨newId, newEmail, some (metaFullName.getD newEmail), Role.customer, now, now⟩]

/-- The elevated-privilege procedure `create_admin_user(user_email)`:
`UPDATE user_profiles SET role = 'admin' WHERE email = user_email`. -/
def create_admin_user (s : Store) (user_email : String) : Store :=
  s.map (fun r => if r.email == user_email then { r with role := Role.admin } else r)

/-! ## Retry wrapper (`retryOperation`) -/

/-- Constant `MAX_RETRIES = 3`. -/
def MAX_RETRIES : Nat := 3

/-- Constant `RETRY_DELAY = 1000` (one second). -/
def RETRY_DELAY : Nat := 1000

/-- One run of `retryOperation`, starting at invocation index `k`.  The
operation is modelled as `op : Nat → Except ε α`, giving the outcome of its
`k`-th invocation.  Returns the final outcome, the number of invocations
made, and the list of waits (in ms) inserted between invocations.  Mirrors
```
try { return await operation() }
catch (error) {
  if (retries === 0) throw error
  await wait(delay)
  return retryOperation(operation, retries - 1, delay * 2)
}
``` -/
def retryRun (op : Nat → Except ε α) (k retries delay : Nat) :
    Except ε α × Nat × List Nat :=
  match op k with
  | .ok a => (.ok a, 1, [])
  | .error e =>
    match retries with
    | 0 => (.error e, 1, [])
    | r + 1 =>
      let rec_ := retryRun op (k + 1) r (delay * 2)
      (rec_.1, rec_.2.1 + 1, delay :: rec_.2.2)

/-- Entry point `retryOperation(operation, retries = MAX_RETRIES, delay = RETRY_DELAY)`. -/
def retryOperation (op : Nat → Except ε α)
    (retries : Nat := MAX_RETRIES) (delay : Nat := RETRY_DELAY) :
    Except ε α × Nat × List Nat :=
  retryRun op 0 retries delay

/-! ## Profile cache and `getUserProfile` -/

/-- Constant `CACHE_DURATION = 5 * 60 * 1000` (five minutes, in ms). -/
def CACHE_DURATION : Nat := 5 * 60 * 1000

/-- The module-level `profileCache : Map<string, { profile, timestamp }>`,
modelled as an association list. -/
abbrev Cache := List (String × DbRow × Nat)

/-- Lookup `profileCache.get(userId)`. -/
def cacheGet (c : Cache) (k : String) : Option (DbRow × Nat) :=
  (c.find? (fun e => e.1 == k)).map (fun e => e.2)

/-- Update `profileCache.set(userId, { profile, timestamp })`: replaces any existing
entry for the key. -/
def cacheSet (c : Cache) (k : String) (v : DbRow × Nat) : Cache :=
  (k, v) :: c.filter (fun e => e.1 != k)

/-- The identity the auth subsystem reports for the current principal:
`user.user.email` and `user.user.user_metadata.full_name`. -/
structure AuthUser where
  email : String
  meta_full_name : Option String
deriving DecidableEq, Repr

/-- The row inserted by the self-heal path of `getUserProfile`:
`{ id: userId, email: user.user.email,
   full_name: user.user.user_metadata.full_name || user.user.email,
   role: 'customer' }` (timestamps from the store's `now()` defaults). -/
def selfHealRow (userId : String) (u : AuthUser) (now : Nat) : DbRow :=
  ⟨userId, u.email, some (u.meta_full_name.getD u.email), Role.customer, now, now⟩

instance {ε α : Type} [DecidableEq ε] [DecidableEq α] :
    DecidableEq (Except ε α) := fun a b =>
  match a, b with
  | .ok x, .ok y =>
    if h : x = y then .isTrue (by rw [h]) else .isFalse (by simp [h])
  | .error x, .error y =>
    if h : x = y then .isTrue (by rw [h]) else .isFalse (by simp [h])
  | .ok _, .error _ => .isFalse (by simp)
  | .error _, .ok _ => .isFalse (by simp)

/-- Outcome of one `getUserProfile` call: the returned-or-thrown value, the
cache and store afterwards, and how many store reads/writes were issued. -/
structure GetProfileResult where
  result : Except PgError DbRow
  cache2 : Cache
  store2 : Store
  storeReads : Nat
  storeWrites : Nat
deriving DecidableEq, Repr

/-- The store path of `getUserProfile`, parametrised over the response
`selectResp` of the initial select (the code consumes only that response).
`s0` is the store when the select answered; `between` is the environment's
action on the store between the select and the self-heal insert (the
provisioning trigger may fire there); `authUser` is the answer of
`supabase.auth.getUser()`.  Mirrors lines 128–196 of the source:
select → on `PGRST116` re-read the auth identity and insert a default
`customer` row → cache and return the successful result, rethrowing every
unhandled error. -/
def getUserProfileFetch (userId : String) (cache : Cache) (now : Nat)
    (selectResp : Except PgError DbRow)
    (s0 : Store) (between : Store → Store) (authUser : Option AuthUser) :
    GetProfileResult :=
  match selectResp with
  | .ok data =>
    ⟨.ok data, cacheSet cache userId (data, now), s0, 1, 0⟩
  | .error err =>
    if err.code == "PGRST116" then
      match authUser with
      | some u =>
        let s1 := between s0
        match storeInsert s1 (selfHealRow userId u now) with
        | .error insertError => ⟨.error insertError, cache, s1, 1, 1⟩
        | .ok (s2, newProfile) =>
          ⟨.ok newProfile, cacheSet cache userId (newProfile, now), s2, 1, 1⟩
      | none => ⟨.error err, cache, s0, 1, 0⟩
    else ⟨.error err, cache, s0, 1, 0⟩

/-- The function `getUserProfile(userId)` against an honest store: if a cached entry
exists and `Date.now() - cached.timestamp < CACHE_DURATION`, return it with
no store round-trip; otherwise run the fetch path with the select answered
from the store state `s0`. -/
def getUserProfile (userId : String) (cache : Cache) (now : Nat)
    (s0 : Store) (between : Store → Store) (authUser : Option AuthUser) :
    GetProfileResult :=
  match cacheGet cache userId with
  | some (p, ts) =>
    if (now : Int) - (ts : Int) < (CACHE_DURATION : Int) then
      ⟨.ok p, cache, s0, 0, 0⟩
    else
      getUserProfileFetch userId cache now (storeSelectSingle s0 userId) s0 between authUser
  | none =>
    getUserProfileFetch userId cache now (storeSelectSingle s0 userId) s0 between authUser

/-- The helper `clearProfileCache(userId?)`: deletes the one entry when a key is given,
clears the whole map otherwise. -/
def clearProfileCache (c : Cache) (userId : Option String) : Cache :=
  match userId with
  | some uid => c.filter (fun e => e.1 != uid)
  | none => []

/-! ## Provisioning race (trigger vs. self-heal insert) -/

/-- One atomic store-level operation touching the profile row of a fixed
principal: either the provisioning trigger fires (`handle_new_user`), or one
`getUserProfile` self-heal path attempts its plain insert (which leaves the
store unchanged when it fails with a key conflict). -/
inductive ProvisionOp where
  | trigger (email : String) (meta : Option String) (now : Nat)
  | selfHeal (u : AuthUser) (now : Nat)
deriving DecidableEq, Repr

/-- Apply one provisioning operation for principal `uid` to the store. -/
def applyOp (uid : String) (s : Store) : ProvisionOp → Store
  | .trigger email meta now => handle_new_user s uid email meta now
  | .selfHeal u now =>
    match storeInsert s (selfHealRow uid u now) with
    | .ok (s2, _) => s2
    | .error _ => s

/-- Run a schedule of interleaved provisioning operations for `uid`. -/
def runOps (uid : String) (s : Store) (ops : List ProvisionOp) : Store :=
  ops.foldl (applyOp uid) s

/-- The store holds exactly one profile row for `uid`, with role
`customer`. -/
def oneCustomerRow (s : Store) (uid : String) : Prop :=
  (uRows s uid).length = 1 ∧ ∀ r ∈ uRows s uid, r.role = Role.customer

/-! ## Session manager (`AuthContext`) -/

/-- The `{ data: { user }, error }` result object of the auth subsystem's
`signInWithPassword` / `signUp` calls (the fields the code consumes). -/
structure AuthResponse where
  user : Option AuthUser
  error : Option String
deriving DecidableEq, Repr

/-- The function `signIn(email, password)`: awaits `signInWithPassword` and returns its
result object unchanged — it never throws. -/
def signIn (resp : AuthResponse) : Except String AuthResponse :=
  .ok resp

/-- The external responses `signUp` consumes after the auth call: the
verification select of the new profile row, and the outcome of the manual
fallback insert. -/
structure SignUpEnv where
  auth : AuthResponse
  profileCheck : Except PgError DbRow
  insertError : Option PgError
deriving Repr

/-- Observable outcome of one `signUp(email, password, fullName?)` call. -/
structure SignUpResult where
  result : Except String AuthResponse
  profileVerified : Bool
  manualInsertTried : Bool
deriving DecidableEq, Repr

/-- The function `signUp(email, password, fullName?)`: on an auth error the code does
`throw result.error` (rethrown by the surrounding catch); on success it waits
a second, verifies the profile row, and if the verification read fails it
attempts a manual insert whose error is only logged.  It then returns the
auth result object. -/
def signUp (env : SignUpEnv) : SignUpResult :=
  match env.auth.error with
  | some e => ⟨.error e, false, false⟩
  | none =>
    match env.auth.user with
    | some _u =>
      match env.profileCheck with
      | .ok _profile => ⟨.ok env.auth, true, false⟩
      | .error _profileError =>
        match env.insertError with
        | some _insertError => ⟨.ok env.auth, false, true⟩
        | none => ⟨.ok env.auth, false, true⟩
    | none => ⟨.ok env.auth, false, false⟩

/-- The function `signOut()`: awaits `supabase.auth.signOut()` and sets
`userProfile = null`.  It touches nothing else — in particular the module
cache is left as it is. -/
def signOut (cache : Cache) (_userProfile : Option DbRow) :
    Cache × Option DbRow :=
  (cache, none)

/-- The function `loadUserProfile(userId)`: awaits `getUserProfile`; on success stores the
profile, on any exception logs and degrades to `userProfile = null`; either
way `loading` ends up `false`.  Returns `(userProfile, loading)`. -/
def loadUserProfile (fetch : Except PgError DbRow) : Option DbRow × Bool :=
  match fetch with
  | .ok profile => (some profile, false)
  | .error _ => (none, false)

/-- Derivation `isAdmin = userProfile?.role === 'admin'` (optional chaining yields
`undefined`, and `undefined === 'admin'` is `false`). -/
def isAdmin (userProfile : Option DbRow) : Bool :=
  match userProfile with
  | some p => p.role == Role.admin
  | none => false

/-! ## Admin-login UI (`onSignup`) -/

/-- Observable outcome of the `onSignup` handler of the admin-login page:
whether `createAdminUser(data.email)` was invoked, and the UI error/success
messages set. -/
structure OnSignupResult where
  calledCreateAdmin : Bool
  errorMsg : Option String
  successMsg : Option String
deriving DecidableEq, Repr

/-- The handler `onSignup(data)`: destructures `{ data: authData, error }` from
`signUp(...)`; a thrown error lands in the catch; otherwise, when
`authData.user` is present, invokes `createAdminUser(data.email)` and sets
the success or failure message. -/
def onSignup (signUpRes : Except String AuthResponse)
    (adminRpcError : Option PgError) : OnSignupResult :=
  match signUpRes with
  | .error _ => ⟨false, some "An unexpected error occurred", none⟩
  | .ok r =>
    match r.error with
    | some e => ⟨false, some e, none⟩
    | none =>
      match r.user with
      | some _ =>
        match adminRpcError with
        | none =>
          ⟨true, none, some "Admin account created successfully! You can now sign in."⟩
        | some _ =>
          ⟨true, some "Account created but failed to set admin role. Please contact support.", none⟩
      | none => ⟨false, none, none⟩

/-- A sample profile row used by concrete counterexamples. -/
def sampleProfile : DbRow :=
  ⟨"u1", "u1@example.com", none, Role.customer, 0, 0⟩

end NSine

namespace NSine

/-! ## Helper lemmas -/

theorem uRows_append (s t : Store) (uid : String) :
    uRows (s ++ t) uid = uRows s uid ++ uRows t uid := by
  simp [uRows, List.filter_append]

theorem any_id_eq_false (s : Store) (uid : String) (h : uRows s uid = []) :
    (s.any fun r => r.id == uid) = false := by
  induction s with
  | nil => rfl
  | cons r s ih =>
    simp only [uRows, List.filter] at h ⊢
    cases hr : r.id == uid with
    | true => simp [hr] at h
    | false =>
      simp only [hr] at h
      simp [hr, ih h]

theorem any_id_eq_true (s : Store) (uid : String) (h : (uRows s uid).length = 1) :
    (s.any fun r => r.id == uid) = true := by
  induction s with
  | nil => simp [uRows] at h
  | cons r s ih =>
    simp only [uRows, List.filter] at h ⊢
    cases hr : r.id == uid with
    | true => simp [hr]
    | false =>
      simp only [hr] at h
      simp [hr, ih h]

end NSine

namespace NSine

theorem cacheGet_set_self (c : Cache) (k : String) (v : DbRow × Nat) :
    cacheGet (cacheSet c k v) k = some v := by
  simp [cacheGet, cacheSet, List.find?]

theorem fetch_storeReads (userId : String) (cache : Cache) (now : Nat)
    (selectResp : Except PgError DbRow) (s0 : Store) (between : Store → Store)
    (authUser : Option AuthUser) :
    (getUserProfileFetch userId cache now selectResp s0 between authUser).storeReads = 1 := by
  unfold getUserProfileFetch
  cases selectResp with
  | ok d => rfl
  | error e =>
    cases hc : (e.code == "PGRST116") with
    | false => simp [hc]
    | true =>
      simp only [hc, if_true]
      cases authUser with
      | none => rfl
      | some u =>
        cases h : storeInsert (between s0) (selfHealRow userId u now) with
        | ok p =>
          obtain ⟨s2, np⟩ := p
          simp [h]
        | error ie => simp [h]

theorem fetch_ok_cached (userId : String) (cache : Cache) (now : Nat)
    (selectResp : Except PgError DbRow) (s0 : Store) (between : Store → Store)
    (authUser : Option AuthUser) (p : DbRow)
    (hres : (getUserProfileFetch userId cache now selectResp s0 between authUser).result
      = Except.ok p) :
    cacheGet (getUserProfileFetch userId cache now selectResp s0 between authUser).cache2
      userId = some (p, now) := by
  unfold getUserProfileFetch at hres ⊢
  cases selectResp with
  | ok d =>
    have hd : d = p := by injection hres
    subst hd
    exact cacheGet_set_self cache userId (d, now)
  | error e =>
    cases hc : (e.code == "PGRST116") with
    | false => simp [hc] at hres
    | true =>
      simp only [hc, if_true] at hres ⊢
      cases authUser with
      | none => simp at hres
      | some u =>
        dsimp only at hres ⊢
        cases h : storeInsert (between s0) (selfHealRow userId u now) with
        | ok pr =>
          obtain ⟨s2, np⟩ := pr
          rw [h] at hres
          dsimp only at hres ⊢
          have hd : np = p := by injection hres
          subst hd
          exact cacheGet_set_self cache userId (np, now)
        | error ie =>
          rw [h] at hres
          simp at hres

theorem uRows_map_if (s : Store) (uid : String) (f : DbRow → DbRow)
    (hid : ∀ r, (f r).id = r.id) :
    uRows (s.map (fun r => if r.id == uid then f r else r)) uid
      = (uRows s uid).map f := by
  induction s with
  | nil => rfl
  | cons r s ih =>
    by_cases hr : r.id = uid
    · have hfr : (f r).id = uid := by rw [hid r]; exact hr
      simpa [uRows, hr, hfr] using ih
    · have hfr : ¬ (f r).id = uid := by rw [hid r]; exact hr
      simpa [uRows, hr, hfr] using ih

theorem uRows_handle_existing (s : Store) (uid email : String)
    (meta : Option String) (now : Nat)
    (hany : (s.any fun r => r.id == uid) = true) :
    uRows (handle_new_user s uid email meta now) uid
      = (uRows s uid).map (fun r =>
          { r with email := email, full_name := some (meta.getD email),
                   updated_at := now }) := by
  unfold handle_new_user
  rw [hany]
  exact uRows_map_if s uid _ (fun r => rfl)

theorem applyOp_of_empty (uid : String) (s : Store) (op : ProvisionOp)
    (h : uRows s uid = []) : oneCustomerRow (applyOp uid s op) uid := by
  have hany := any_id_eq_false s uid h
  cases op with
  | trigger email meta now =>
    have hstep : applyOp uid s (.trigger email meta now)
        = s ++ [⟨uid, email, some (meta.getD email), Role.customer, now, now⟩] := by
      unfold applyOp handle_new_user
      rw [hany]
      rfl
    rw [hstep]
    constructor
    · rw [uRows_append, h]
      simp [uRows]
    · intro r hr
      rw [uRows_append, h] at hr
      simp [uRows] at hr
      rw [hr]
  | selfHeal u now =>
    have hins : storeInsert s (selfHealRow uid u now)
        = Except.ok (s ++ [selfHealRow uid u now], selfHealRow uid u now) := by
      unfold storeInsert
      dsimp only [selfHealRow]
      rw [hany]
      rfl
    have hstep : applyOp uid s (.selfHeal u now) = s ++ [selfHealRow uid u now] := by
      unfold applyOp
      dsimp only
      rw [hins]
    rw [hstep]
    constructor
    · rw [uRows_append, h]
      simp [uRows, selfHealRow]
    · intro r hr
      rw [uRows_append, h] at hr
      simp [uRows, selfHealRow] at hr
      rw [hr]

theorem applyOp_preserves (uid : String) (s : Store) (op : ProvisionOp)
    (h : oneCustomerRow s uid) : oneCustomerRow (applyOp uid s op) uid := by
  obtain ⟨hlen, hrole⟩ := h
  have hany := any_id_eq_true s uid hlen
  cases op with
  | trigger email meta now =>
    have hstep : applyOp uid s (.trigger email meta now)
        = handle_new_user s uid email meta now := rfl
    rw [hstep]
    have heq := uRows_handle_existing s uid email meta now hany
    constructor
    · rw [heq, List.length_map]
      exact hlen
    · intro r hr
      rw [heq] at hr
      rw [List.mem_map] at hr
      obtain ⟨q, hq, rfl⟩ := hr
      exact hrole q hq
  | selfHeal u now =>
    have hins : storeInsert s (selfHealRow uid u now)
        = Except.error ⟨"23505", "duplicate key value violates unique constraint"⟩ := by
      unfold storeInsert
      dsimp only [selfHealRow]
      rw [hany]
      rfl
    have hstep : applyOp uid s (.selfHeal u now) = s := by
      unfold applyOp
      dsimp only
      rw [hins]
    rw [hstep]
    exact ⟨hlen, hrole⟩

theorem runOps_preserves (uid : String) (ops : List ProvisionOp) :
    ∀ s : Store, oneCustomerRow s uid → oneCustomerRow (runOps uid s ops) uid := by
  induction ops with
  | nil => exact fun s h => h
  | cons op rest ih =>
    intro s h
    exact ih (applyOp uid s op) (applyOp_preserves uid s op h)

theorem cacheGet_clear_self (c : Cache) (uid : String) :
    cacheGet (clearProfileCache c (some uid)) uid = none := by
  have h : (c.filter (fun e => e.1 != uid)).find? (fun e => e.1 == uid) = none := by
    rw [List.find?_eq_none]
    intro x hx
    rw [List.mem_filter] at hx
    simpa using hx.2
  simp only [cacheGet, clearProfileCache]
  rw [h]
  rfl

theorem cacheGet_clear_other (c : Cache) (uid k : String) (hk : k ≠ uid) :
    cacheGet (clearProfileCache c (some uid)) k = cacheGet c k := by
  have h : (c.filter (fun e => e.1 != uid)).find? (fun e => e.1 == k)
      = c.find? (fun e => e.1 == k) := by
    induction c with
    | nil => rfl
    | cons e c ih =>
      by_cases he : e.1 = uid
      · have h1 : ¬ ((e.1 != uid) = true) := by simp [he]
        have h2 : ¬ ((e.1 == k) = true) := by
          simp only [beq_iff_eq, he]
          exact fun h2 => hk h2.symm
        rw [@List.filter_cons_of_neg _ (fun x => x.1 != uid) e c h1,
          @List.find?_cons_of_neg _ (fun x => x.1 == k) e c h2]
        exact ih
      · by_cases hek : e.1 = k
        · have h1 : (e.1 != uid) = true := by simp [he]
          have h2 : (e.1 == k) = true := by simp [hek]
          rw [@List.filter_cons_of_pos _ (fun x => x.1 != uid) e c h1,
            @List.find?_cons_of_pos _ (fun x => x.1 == k) e (c.filter (fun x => x.1 != uid)) h2,
            @List.find?_cons_of_pos _ (fun x => x.1 == k) e c h2]
        · have h1 : (e.1 != uid) = true := by simp [he]
          have h2 : ¬ ((e.1 == k) = true) := by simp [hek]
          rw [@List.filter_cons_of_pos _ (fun x => x.1 != uid) e c h1,
            @List.find?_cons_of_neg _ (fun x => x.1 == k) e (c.filter (fun x => x.1 != uid)) h2,
            @List.find?_cons_of_neg _ (fun x => x.1 == k) e c h2]
          exact ih
  simp only [cacheGet, clearProfileCache]
  rw [h]

end NSine

/-! ## Claims about the retry wrapper -/

/-- Claim C3, counterexample. The claim says `retryOperation` called with
`maxAttempts = 3` invokes an always-failing operation exactly 3 times.  On
the concrete operation whose `k`-th invocation throws `k`, the wrapper makes
4 invocations (the `retries` parameter counts retries made after the initial
attempt). -/
theorem C3_counterexample :
    (NSine.retryOperation (fun k => (Except.error k : Except Nat Unit)) 3 1000).2.1 ≠ 3 := by
  decide

/-- Claim C3 (amended). For every operation that throws on every invocation,
`retryOperation(op, 3, 1000)` invokes the operation exactly 4 times (the
initial attempt plus 3 retries), waits 1000, 2000, 4000 ms between attempts,
and rethrows the error produced by the final (fourth) attempt. -/
theorem C3_retry_exhaustion {ε α : Type} (op : Nat → Except ε α) (err : Nat → ε)
    (h : ∀ k, op k = Except.error (err k)) :
    NSine.retryOperation op 3 1000
      = (Except.error (err 3), 4, [1000, 2000, 4000]) := by
  simp [NSine.retryOperation, NSine.retryRun, h]

/-- Claim C3 witness. The amended exhaustion theorem at the concrete
always-failing operation returning its invocation index as the error. -/
theorem C3_retry_exhaustion_witness :
    NSine.retryOperation (fun k => (Except.error k : Except Nat Unit)) 3 1000
      = (Except.error 3, 4, [1000, 2000, 4000]) :=
  C3_retry_exhaustion (fun k => Except.error k) (fun k => k) (fun _ => rfl)

/-- Claim C4. For every operation that throws on its first two invocations and
succeeds on the third, `retryOperation(op, 3, 1000)` returns the successful
result after 3 invocations; the inserted waits are 1000 ms then 2000 ms
(doubling each retry), so the total inserted wait is `≥ 3000` ms. -/
theorem C4_retry_backoff {ε α : Type} (op : Nat → Except ε α)
    (e0 e1 : ε) (a : α)
    (h0 : op 0 = Except.error e0) (h1 : op 1 = Except.error e1)
    (h2 : op 2 = Except.ok a) :
    NSine.retryOperation op 3 1000 = (Except.ok a, 3, [1000, 2000]) ∧
    (NSine.retryOperation op 3 1000).2.2.sum ≥ 3000 := by
  have hrun : NSine.retryOperation op 3 1000 = (Except.ok a, 3, [1000, 2000]) := by
    simp [NSine.retryOperation, NSine.retryRun, h0, h1, h2]
  exact ⟨hrun, by rw [hrun]; simp⟩

/-- Claim C4 witness. The backoff theorem at a concrete operation failing
twice then succeeding. -/
theorem C4_retry_backoff_witness :
    NSine.retryOperation
        (fun k => if k < 2 then (Except.error k : Except Nat Bool) else Except.ok true)
        3 1000
      = (Except.ok true, 3, [1000, 2000]) :=
  (C4_retry_backoff
    (fun k => if k < 2 then (Except.error k : Except Nat Bool) else Except.ok true)
    0 1 true rfl rfl rfl).1

/-! ## Authorization resolver -/

/-- Claim C6. `isAdmin` is a pure derivation of the `userProfile` state: it is
`true` exactly when `userProfile` is non-null with role `admin`, and it is
`false` (not an error) when `userProfile` is null. -/
theorem C6_isAdmin_derived (p : Option NSine.DbRow) :
    (NSine.isAdmin p = true ↔ ∃ u, p = some u ∧ u.role = NSine.Role.admin) ∧
    NSine.isAdmin none = false := by
  refine ⟨?_, rfl⟩
  cases p with
  | none => simp [NSine.isAdmin]
  | some u => simp [NSine.isAdmin]

/-- Claim C6 witness. The derivation evaluated at the sample customer profile
and at the null profile. -/
theorem C6_isAdmin_derived_witness :
    NSine.isAdmin (some NSine.sampleProfile) = false ∧
    NSine.isAdmin none = false := by
  refine ⟨?_, (C6_isAdmin_derived (some NSine.sampleProfile)).2⟩
  cases h : NSine.isAdmin (some NSine.sampleProfile) with
  | false => rfl
  | true =>
    have := (C6_isAdmin_derived (some NSine.sampleProfile)).1.mp h
    simp [NSine.sampleProfile] at this

/-! ## Profile cache TTL -/

/-- Claim C2. A `getUserProfile` call while a cache entry for the principal
exists with age strictly below `CACHE_DURATION` returns the cached profile
and performs no store round-trip (cache and store untouched); otherwise
exactly one store read is issued and any successfully returned profile is
written to the cache under the current timestamp before being returned. -/
theorem C2_cache_ttl (userId : String) (cache : NSine.Cache) (now : Nat)
    (s0 : NSine.Store) (between : NSine.Store → NSine.Store)
    (authUser : Option NSine.AuthUser) :
    (∀ p ts, NSine.cacheGet cache userId = some (p, ts) →
        (now : Int) - (ts : Int) < (NSine.CACHE_DURATION : Int) →
        NSine.getUserProfile userId cache now s0 between authUser
          = ⟨Except.ok p, cache, s0, 0, 0⟩)
    ∧ ((∀ p ts, NSine.cacheGet cache userId = some (p, ts) →
          ¬ ((now : Int) - (ts : Int) < (NSine.CACHE_DURATION : Int))) →
        (NSine.getUserProfile userId cache now s0 between authUser).storeReads = 1 ∧
        ∀ p, (NSine.getUserProfile userId cache now s0 between authUser).result
            = Except.ok p →
          NSine.cacheGet
            (NSine.getUserProfile userId cache now s0 between authUser).cache2 userId
            = some (p, now)) := by
  constructor
  · intro p ts hget hfresh
    unfold NSine.getUserProfile
    rw [hget]
    exact if_pos hfresh
  · intro hstale
    have hgoal : NSine.getUserProfile userId cache now s0 between authUser
        = NSine.getUserProfileFetch userId cache now
            (NSine.storeSelectSingle s0 userId) s0 between authUser := by
      unfold NSine.getUserProfile
      cases hg : NSine.cacheGet cache userId with
      | none => rfl
      | some pt =>
        obtain ⟨p, ts⟩ := pt
        exact if_neg (hstale p ts hg)
    rw [hgoal]
    exact ⟨NSine.fetch_storeReads userId cache now _ s0 between authUser,
      fun p hp => NSine.fetch_ok_cached userId cache now _ s0 between authUser p hp⟩

/-- Claim C2 witness. Both branches at concrete inputs: a fresh entry at age 0
is returned from the cache with no store traffic; with an empty cache the
profile is fetched from the store and cached under the current timestamp. -/
theorem C2_cache_ttl_witness :
    NSine.getUserProfile "u1" [("u1", (NSine.sampleProfile, 0))] 0
        [NSine.sampleProfile] id none
      = ⟨Except.ok NSine.sampleProfile, [("u1", (NSine.sampleProfile, 0))],
         [NSine.sampleProfile], 0, 0⟩ ∧
    ((NSine.getUserProfile "u1" [] 42 [NSine.sampleProfile] id none).storeReads = 1 ∧
      ∀ p, (NSine.getUserProfile "u1" [] 42 [NSine.sampleProfile] id none).result
          = Except.ok p →
        NSine.cacheGet
          (NSine.getUserProfile "u1" [] 42 [NSine.sampleProfile] id none).cache2 "u1"
          = some (p, 42)) := by
  constructor
  · exact (C2_cache_ttl "u1" [("u1", (NSine.sampleProfile, 0))] 0
      [NSine.sampleProfile] id none).1 NSine.sampleProfile 0 (by decide) (by decide)
  · exact (C2_cache_ttl "u1" [] 42 [NSine.sampleProfile] id none).2
      (by intro p ts hget h2; simp [NSine.cacheGet] at hget)

/-! ## Self-healing not-found path -/

/-- Claim C5. When the store read inside `getUserProfile` reports the
not-found code `PGRST116`, the resolver re-reads the current principal's
identity from the auth subsystem and inserts a new row with
`role = 'customer'` and `full_name` defaulted to the metadata full name or
the email (shown here for an insert that does not race a conflicting row);
a not-found with no fallback identity, or any error with a different code,
propagates to the caller as a fetch failure. -/
theorem C5_not_found_handling (userId : String) (cache : NSine.Cache) (now : Nat)
    (e : NSine.PgError) (s0 : NSine.Store) (between : NSine.Store → NSine.Store) :
    (∀ u : NSine.AuthUser, e.code = "PGRST116" →
        NSine.uRows (between s0) userId = [] →
        NSine.getUserProfileFetch userId cache now (Except.error e) s0 between (some u)
          = ⟨Except.ok (NSine.selfHealRow userId u now),
             NSine.cacheSet cache userId (NSine.selfHealRow userId u now, now),
             between s0 ++ [NSine.selfHealRow userId u now], 1, 1⟩ ∧
        (NSine.selfHealRow userId u now).role = NSine.Role.customer ∧
        (NSine.selfHealRow userId u now).full_name
          = some (u.meta_full_name.getD u.email))
    ∧ (e.code = "PGRST116" →
        NSine.getUserProfileFetch userId cache now (Except.error e) s0 between none
          = ⟨Except.error e, cache, s0, 1, 0⟩)
    ∧ (e.code ≠ "PGRST116" → ∀ authUser : Option NSine.AuthUser,
        NSine.getUserProfileFetch userId cache now (Except.error e) s0 between authUser
          = ⟨Except.error e, cache, s0, 1, 0⟩) := by
  refine ⟨?_, ?_, ?_⟩
  · intro u hcode hempty
    have hany := NSine.any_id_eq_false (between s0) userId hempty
    have hins : NSine.storeInsert (between s0) (NSine.selfHealRow userId u now)
        = Except.ok (between s0 ++ [NSine.selfHealRow userId u now],
            NSine.selfHealRow userId u now) := by
      unfold NSine.storeInsert
      dsimp only [NSine.selfHealRow]
      rw [hany]
      rfl
    have hcond : (e.code == "PGRST116") = true := by simp [hcode]
    refine ⟨?_, rfl, rfl⟩
    unfold NSine.getUserProfileFetch
    simp [hcond, hins]
  · intro hcode
    have hcond : (e.code == "PGRST116") = true := by simp [hcode]
    unfold NSine.getUserProfileFetch
    simp [hcond]
  · intro hcode authUser
    have hne : (e.code == "PGRST116") = false := by
      simp [hcode]
    unfold NSine.getUserProfileFetch
    cases authUser with
    | none => simp [hne]
    | some u => simp [hne]

/-- Claim C5 witness. All three branches at concrete inputs: the self-heal
insert for a fresh principal, a not-found with no auth identity, and a
non-not-found error code. -/
theorem C5_not_found_handling_witness :
    (NSine.getUserProfileFetch "u1" [] 7
        (Except.error ⟨"PGRST116", "no rows"⟩) [] id (some ⟨"u1@example.com", none⟩)
      = ⟨Except.ok (NSine.selfHealRow "u1" ⟨"u1@example.com", none⟩ 7),
         NSine.cacheSet [] "u1" (NSine.selfHealRow "u1" ⟨"u1@example.com", none⟩ 7, 7),
         [] ++ [NSine.selfHealRow "u1" ⟨"u1@example.com", none⟩ 7], 1, 1⟩)
    ∧ (NSine.getUserProfileFetch "u1" [] 7
        (Except.error ⟨"PGRST116", "no rows"⟩) [] id none
      = ⟨Except.error ⟨"PGRST116", "no rows"⟩, [], [], 1, 0⟩)
    ∧ (NSine.getUserProfileFetch "u1" [] 7
        (Except.error ⟨"500", "transport error"⟩) [] id none
      = ⟨Except.error ⟨"500", "transport error"⟩, [], [], 1, 0⟩) := by
  have h := C5_not_found_handling "u1" [] 7 ⟨"PGRST116", "no rows"⟩ [] id
  have h2 := C5_not_found_handling "u1" [] 7 ⟨"500", "transport error"⟩ [] id
  exact ⟨(h.1 ⟨"u1@example.com", none⟩ rfl rfl).1, h.2.1 rfl,
    h2.2.2 (by decide) none⟩

/-! ## Provisioning idempotence (C1) -/

/-- Claim C1, counterexample. The claim says the self-heal insert performed by
`getUserProfile` resolves a race against the provisioning trigger by
insert-or-update-on-conflict (upsert by primary key).  In the concrete
schedule where the trigger fires between the not-found select and the
client insert, the plain insert instead fails with the duplicate-key
conflict error `23505`, which `getUserProfile` rethrows: the conflict is
not resolved by upsert semantics on this path. -/
theorem C1_counterexample :
    (NSine.getUserProfile "u1" [] 0 []
        (fun s => NSine.handle_new_user s "u1" "u1@example.com" none 0)
        (some ⟨"u1@example.com", none⟩)).result
      = Except.error ⟨"23505", "duplicate key value violates unique constraint"⟩ := by
  rfl

/-- Claim C1 (amended). The provisioning trigger is an upsert keyed by the
primary key, while the client self-heal insert is a plain insert that fails
on conflict (leaving the store unchanged).  Consequently, for a principal
with no existing profile row, any non-empty interleaving of the trigger and
any number of `getUserProfile` self-heal insert attempts leaves exactly one
persisted profile row for that principal, with `role = 'customer'` — though
a raced `getUserProfile` call itself may fail with a conflict error. -/
theorem C1_provisioning_idempotent (uid : String) (s0 : NSine.Store)
    (ops : List NSine.ProvisionOp)
    (h0 : NSine.uRows s0 uid = []) (hne : ops ≠ []) :
    (NSine.uRows (NSine.runOps uid s0 ops) uid).length = 1 ∧
    ∀ r ∈ NSine.uRows (NSine.runOps uid s0 ops) uid,
      r.role = NSine.Role.customer := by
  cases ops with
  | nil => exact absurd rfl hne
  | cons op rest =>
    exact NSine.runOps_preserves uid rest (NSine.applyOp uid s0 op)
      (NSine.applyOp_of_empty uid s0 op h0)

/-- Claim C1 witness. The amended theorem at the concrete racing schedule:
the trigger fires, then two self-heal insert attempts race it; exactly one
customer row survives. -/
theorem C1_provisioning_idempotent_witness :
    (NSine.uRows
        (NSine.runOps "u1" []
          [NSine.ProvisionOp.trigger "u1@example.com" none 0,
           NSine.ProvisionOp.selfHeal ⟨"u1@example.com", none⟩ 1,
           NSine.ProvisionOp.selfHeal ⟨"u1@example.com", none⟩ 2]) "u1").length = 1 ∧
    ∀ r ∈ NSine.uRows
        (NSine.runOps "u1" []
          [NSine.ProvisionOp.trigger "u1@example.com" none 0,
           NSine.ProvisionOp.selfHeal ⟨"u1@example.com", none⟩ 1,
           NSine.ProvisionOp.selfHeal ⟨"u1@example.com", none⟩ 2]) "u1",
      r.role = NSine.Role.customer :=
  C1_provisioning_idempotent "u1" []
    [NSine.ProvisionOp.trigger "u1@example.com" none 0,
     NSine.ProvisionOp.selfHeal ⟨"u1@example.com", none⟩ 1,
     NSine.ProvisionOp.selfHeal ⟨"u1@example.com", none⟩ 2]
    rfl (by decide)

/-! ## Session-manager failure handling -/

/-- Claim C7, counterexample. The claim says `signIn` and `signUp` return a
result object carrying the error and never throw.  On a concrete auth
failure, `signUp` executes `throw result.error` (rethrown by its own catch
block): the caller receives a thrown error, not a returned result object. -/
theorem C7_counterexample :
    (NSine.signUp ⟨⟨none, some "Invalid login credentials"⟩,
        Except.error ⟨"", ""⟩, none⟩).result
      = Except.error "Invalid login credentials" := rfl

/-- Claim C7 (amended). `signIn` returns the auth result object (carrying any
error) and never throws; `signUp`, by contrast, rethrows an auth failure to
its caller; and any exception raised while loading the profile is caught and
degrades to `userProfile = null` with `loading = false` instead of
propagating out of the session flow. -/
theorem C7_failure_handling :
    (∀ resp : NSine.AuthResponse, NSine.signIn resp = Except.ok resp)
    ∧ (∀ env : NSine.SignUpEnv, ∀ e, env.auth.error = some e →
        (NSine.signUp env).result = Except.error e)
    ∧ (∀ err : NSine.PgError,
        NSine.loadUserProfile (Except.error err) = (none, false)) := by
  refine ⟨fun resp => rfl, ?_, fun err => rfl⟩
  intro env e he
  unfold NSine.signUp
  rw [he]

/-- Claim C7 witness. The amended statement at concrete inputs: a failing
auth response through `signIn` and `signUp`, and a failing profile fetch
through `loadUserProfile`. -/
theorem C7_failure_handling_witness :
    NSine.signIn ⟨none, some "bad password"⟩ = Except.ok ⟨none, some "bad password"⟩
    ∧ (NSine.signUp ⟨⟨none, some "bad password"⟩, Except.error ⟨"", ""⟩, none⟩).result
        = Except.error "bad password"
    ∧ NSine.loadUserProfile (Except.error ⟨"PGRST116", "no rows"⟩) = (none, false) :=
  ⟨C7_failure_handling.1 ⟨none, some "bad password"⟩,
   C7_failure_handling.2.1 ⟨⟨none, some "bad password"⟩, Except.error ⟨"", ""⟩, none⟩
     "bad password" rfl,
   C7_failure_handling.2.2 ⟨"PGRST116", "no rows"⟩⟩

/-! ## Admin promotion after self-service sign-up -/

/-- Claim C8. When a self-service sign-up through the admin-login UI succeeds
(auth error absent, user present), `onSignup` invokes
`createAdminUser(email)`, and the store procedure `create_admin_user` sets
`role = 'admin'` on every profile row whose email matches — in particular
the provisioned profile row of the new principal becomes an admin row. -/
theorem C8_admin_promotion (r : NSine.AuthResponse) (u : NSine.AuthUser)
    (adminRpcError : Option NSine.PgError) (email : String) (store : NSine.Store)
    (hok : r.error = none) (hu : r.user = some u) :
    (NSine.onSignup (Except.ok r) adminRpcError).calledCreateAdmin = true
    ∧ (∀ row ∈ NSine.create_admin_user store email,
        row.email = email → row.role = NSine.Role.admin)
    ∧ (∀ row ∈ store, row.email = email →
        { row with role := NSine.Role.admin } ∈ NSine.create_admin_user store email) := by
  refine ⟨?_, ?_, ?_⟩
  · unfold NSine.onSignup
    dsimp only
    rw [hok]
    dsimp only
    rw [hu]
    cases adminRpcError <;> rfl
  · intro row hrow hemail
    unfold NSine.create_admin_user at hrow
    rw [List.mem_map] at hrow
    obtain ⟨q, hq, rfl⟩ := hrow
    by_cases hqe : q.email = email
    · simp [hqe]
    · simp [hqe] at hemail
  · intro row hrow hemail
    unfold NSine.create_admin_user
    rw [List.mem_map]
    exact ⟨row, hrow, by simp [hemail]⟩

/-- Claim C8 witness. The promotion pipeline at concrete inputs: a successful
sign-up response triggers the admin RPC, and the sample customer row whose
email matches is turned into an admin row. -/
theorem C8_admin_promotion_witness :
    (NSine.onSignup (Except.ok ⟨some ⟨"u1@example.com", none⟩, none⟩)
        none).calledCreateAdmin = true
    ∧ { NSine.sampleProfile with role := NSine.Role.admin }
        ∈ NSine.create_admin_user [NSine.sampleProfile] "u1@example.com" := by
  have h := C8_admin_promotion ⟨some ⟨"u1@example.com", none⟩, none⟩
    ⟨"u1@example.com", none⟩ none "u1@example.com" [NSine.sampleProfile] rfl rfl
  exact ⟨h.1, h.2.2 NSine.sampleProfile (by simp) rfl⟩

/-! ## Cache invalidation and sign-out -/

/-- Claim C9, counterexample. The claim says the invalidation helper is
invoked after sign-out, so no stale cache entry for the signed-out principal
remains.  In the code `signOut` never calls `clearProfileCache`: after a
concrete `signOut` with a cached entry for the signed-out principal, that
entry is still present. -/
theorem C9_counterexample :
    NSine.cacheGet
        (NSine.signOut [("u1", (NSine.sampleProfile, 0))] (some NSine.sampleProfile)).1
        "u1"
      = some (NSine.sampleProfile, 0) := rfl

/-- Claim C9 (amended). `clearProfileCache(userId?)` removes exactly the one
entry for the given id (leaving every other entry unchanged) and removes all
entries when no id is given; but it is not invoked by `signOut`, which
leaves the cache unchanged (only `userProfile` is reset to null), so a cache
entry for the signed-out principal may persist until its TTL expires. -/
theorem C9_invalidate (c : NSine.Cache) (uid : String) :
    NSine.cacheGet (NSine.clearProfileCache c (some uid)) uid = none
    ∧ (∀ k, k ≠ uid →
        NSine.cacheGet (NSine.clearProfileCache c (some uid)) k = NSine.cacheGet c k)
    ∧ NSine.clearProfileCache c none = []
    ∧ (∀ p, NSine.signOut c p = (c, none)) :=
  ⟨NSine.cacheGet_clear_self c uid,
   fun k hk => NSine.cacheGet_clear_other c uid k hk,
   rfl,
   fun _ => rfl⟩

/-- Claim C9 witness. The amended statement at a concrete two-entry cache:
invalidating `"u1"` removes its entry, keeps the entry of `"u2"`, clearing
removes everything, and `signOut` leaves the cache as it is. -/
theorem C9_invalidate_witness :
    NSine.cacheGet
        (NSine.clearProfileCache
          [("u1", (NSine.sampleProfile, 0)), ("u2", (NSine.sampleProfile, 5))]
          (some "u1")) "u1" = none
    ∧ NSine.cacheGet
        (NSine.clearProfileCache
          [("u1", (NSine.sampleProfile, 0)), ("u2", (NSine.sampleProfile, 5))]
          (some "u1")) "u2"
        = NSine.cacheGet
            [("u1", (NSine.sampleProfile, 0)), ("u2", (NSine.sampleProfile, 5))] "u2"
    ∧ NSine.clearProfileCache
        [("u1", (NSine.sampleProfile, 0)), ("u2", (NSine.sampleProfile, 5))] none = []
    ∧ NSine.signOut [("u1", (NSine.sampleProfile, 0))] none
        = ([("u1", (NSine.sampleProfile, 0))], none) := by
  have h := C9_invalidate
    [("u1", (NSine.sampleProfile, 0)), ("u2", (NSine.sampleProfile, 5))] "u1"
  exact ⟨h.1, h.2.1 "u2" (by decide), h.2.2.1,
    (C9_invalidate [("u1", (NSine.sampleProfile, 0))] "u1").2.2.2 none⟩

/-! ## Sign-up swallows the fallback insert failure -/

/-- Claim C10. When the auth call inside `signUp` succeeds but the follow-up
profile verification read fails and the manual fallback insert also fails,
`signUp` still returns the successful auth result: the insert error is only
logged, so the caller observes success while no profile row was confirmed
(`profileVerified = false`, the manual insert was tried and its failure
swallowed). -/
theorem C10_signup_swallows_insert_failure (env : NSine.SignUpEnv)
    (u : NSine.AuthUser) (pe ie : NSine.PgError)
    (hok : env.auth.error = none) (hu : env.auth.user = some u)
    (hchk : env.profileCheck = Except.error pe) (hins : env.insertError = some ie) :
    NSine.signUp env = ⟨Except.ok env.auth, false, true⟩ := by
  unfold NSine.signUp
  rw [hok]
  dsimp only
  rw [hu]
  dsimp only
  rw [hchk]
  dsimp only
  rw [hins]

/-- Claim C10 witness. The swallowed-failure path at concrete inputs: auth
succeeds, the verification read reports not-found, the manual insert is
rejected by the store, and the caller still sees the successful auth
result. -/
theorem C10_signup_swallows_insert_failure_witness :
    NSine.signUp ⟨⟨some ⟨"c@example.com", none⟩, none⟩,
        Except.error ⟨"PGRST116", "no rows"⟩, some ⟨"42501", "permission denied"⟩⟩
      = ⟨Except.ok ⟨some ⟨"c@example.com", none⟩, none⟩, false, true⟩ :=
  C10_signup_swallows_insert_failure
    ⟨⟨some ⟨"c@example.com", none⟩, none⟩,
      Except.error ⟨"PGRST116", "no rows"⟩, some ⟨"42501", "permission denied"⟩⟩
    ⟨"c@example.com", none⟩ ⟨"PGRST116", "no rows"⟩ ⟨"42501", "permission denied"⟩
    rfl rfl rfl rfl
